import Mathlib

/-!
Verification development for the `eval_type_backport` Python module
(file `eval_type_backport/eval_type_backport.py`).

The module evaluates deferred type expressions (forward references holding
source text) and, when the running interpreter rejects `X | Y` union syntax
(or, before Python 3.9, subscripted built-in generics such as `list[int]`),
re-parses the text and rewrites the offending nodes into
`typing.Union[X, Y]` / `typing.List[...]` form before re-evaluating.

Embedding notes.
* Python exceptions are modelled by `ETB.PyErr`; fallible code returns
  `Except PyErr _`.  Only `TypeError` is caught by the module's
  `except TypeError` handlers, so the error kind is distinguished.
* Host-runtime collaborators (the native `typing._eval_type` routine, the
  source parser, compile-and-eval of a syntax-tree node, and the behaviour of
  the `|` operator on runtime values) are fields of `ETB.Runtime`, since the
  module only wraps them.  Python values reachable in this code are modelled
  by the concrete type `ETB.Val`, whose `subclassOf` constructor stands for a
  class object distinct from (but derived from) a base class: Python `dict`
  membership hashes type objects by identity, which the `DecidableEq`-based
  lookup on `Val` mirrors.
* `ast.NodeTransformer` mutates nodes in place inside `generic_visit`
  (assigning each visited child back into its field), while `visit_BinOp`
  calls `self.visit(node.left)` WITHOUT assigning the result back, so a child
  that was wholly replaced is not installed into the parent it came from.
  To capture this functionally, `ETB.visitE` returns a PAIR: first the node
  returned by `visit`, second the state of the argument node object after the
  call (its fields reflect in-place updates of the children objects, but not
  replacements that were merely returned).
* Python recursion depth is finite (`RecursionError` on overflow); the
  visitor takes an explicit depth budget and returns `PyErr.recursionError`
  when it is exhausted.  Every theorem quantifies over the budget.
* `ast.Expression` root wrappers and `ctx=Load()` fields carry no
  information relevant to the rewrites and are absorbed into the abstract
  parser/evaluator; `ast.Index` is kept as a node but, matching the real
  class, carries no source-location attributes.
-/

namespace ETB

/-- Python exception model: `typeError m` is a `TypeError` whose `str(e)` is
`m`; `otherError` covers every other exception class (NameError and so on);
`recursionError` models Python's RecursionError for exhausted call depth. -/
inductive PyErr where
  | typeError (msg : String)
  | otherError (msg : String)
  | recursionError
deriving DecidableEq

/-- Python `str(e)`: the message text of the exception. -/
def PyErr.str : PyErr → String
  | .typeError m => m
  | .otherError m => m
  | .recursionError => "maximum recursion depth exceeded"

/-- Python `isinstance(e, TypeError)`. -/
def PyErr.isTypeError : PyErr → Bool
  | .typeError _ => true
  | _ => false

/-- Python `str.startswith`: character-sequence test that `pre` begins `s`. -/
def strStartsWith (s pre : String) : Bool :=
  pre.toList.isPrefixOf s.toList

/-- Python `sub in s` on strings: `sub` occurs contiguously inside `s`. -/
def strContains (s sub : String) : Bool :=
  decide (sub.toList <:+: s.toList)

/-- Source lines 13-14: `str(e).startswith('unsupported operand type(s) for |: ')`. -/
def is_unsupported_types_for_union_error (e : PyErr) : Bool :=
  strStartsWith e.str "unsupported operand type(s) for |: "

/-- Source lines 17-18: `"' object is not subscriptable" in str(e)`. -/
def is_not_subscriptable_error (e : PyErr) : Bool :=
  strContains e.str "\x27 object is not subscriptable"

/-- Source lines 21-22: disjunction of the two classifiers. -/
def is_backport_fixable_error (e : PyErr) : Bool :=
  is_unsupported_types_for_union_error e || is_not_subscriptable_error e

/-- Runtime values reachable in this module.  `builtinType s` is a standard
type object identified by its dotted path (for example `"list"` or
`"collections.abc.Mapping"`); `subclassOf b s` is a distinct class object
derived from `b`; `typingModule` is the `typing` module object itself;
`typingForm s` is an object obtained from the typing module (such as a
`typing.Union[...]` form); `obj n` is any other value. -/
inductive Val where
  | builtinType (path : String)
  | subclassOf (base : Val) (name : String)
  | typingModule
  | typingForm (name : String)
  | obj (n : Nat)
deriving DecidableEq

/-- Source lines 25-68: the `new_generic_types` dict, keyed by type-object
identity, valued by the name of the legacy explicit generic in `typing`.
The second half of the source literal maps each listed class to its own
`__name__`, written out here. -/
def new_generic_types : List (Val × String) :=
  [ (.builtinType "tuple", "Tuple"),
    (.builtinType "list", "List"),
    (.builtinType "dict", "Dict"),
    (.builtinType "set", "Set"),
    (.builtinType "frozenset", "FrozenSet"),
    (.builtinType "type", "Type"),
    (.builtinType "collections.deque", "Deque"),
    (.builtinType "collections.defaultdict", "DefaultDict"),
    (.builtinType "collections.abc.Set", "AbstractSet"),
    (.builtinType "contextlib.AbstractContextManager", "ContextManager"),
    (.builtinType "contextlib.AbstractAsyncContextManager", "AsyncContextManager"),
    (.builtinType "collections.OrderedDict", "OrderedDict"),
    (.builtinType "collections.Counter", "Counter"),
    (.builtinType "collections.ChainMap", "ChainMap"),
    (.builtinType "collections.abc.Awaitable", "Awaitable"),
    (.builtinType "collections.abc.Coroutine", "Coroutine"),
    (.builtinType "collections.abc.AsyncIterable", "AsyncIterable"),
    (.builtinType "collections.abc.AsyncIterator", "AsyncIterator"),
    (.builtinType "collections.abc.AsyncGenerator", "AsyncGenerator"),
    (.builtinType "collections.abc.Iterable", "Iterable"),
    (.builtinType "collections.abc.Iterator", "Iterator"),
    (.builtinType "collections.abc.Generator", "Generator"),
    (.builtinType "collections.abc.Reversible", "Reversible"),
    (.builtinType "collections.abc.Container", "Container"),
    (.builtinType "collections.abc.Collection", "Collection"),
    (.builtinType "collections.abc.Callable", "Callable"),
    (.builtinType "collections.abc.MutableSet", "MutableSet"),
    (.builtinType "collections.abc.Mapping", "Mapping"),
    (.builtinType "collections.abc.MutableMapping", "MutableMapping"),
    (.builtinType "collections.abc.Sequence", "Sequence"),
    (.builtinType "collections.abc.MutableSequence", "MutableSequence"),
    (.builtinType "collections.abc.MappingView", "MappingView"),
    (.builtinType "collections.abc.KeysView", "KeysView"),
    (.builtinType "collections.abc.ItemsView", "ItemsView"),
    (.builtinType "collections.abc.ValuesView", "ValuesView"),
    (.builtinType "re.Pattern", "Pattern"),
    (.builtinType "re.Match", "Match") ]

/-- First-match association lookup, the order Python's dict scan is
observationally equivalent to on a unique-key table. -/
def assocLookup : List (Val × String) → Val → Option String
  | [], _ => none
  | p :: rest, v => if p.1 = v then some p.2 else assocLookup rest v

/-- Python dict membership plus subscript on `new_generic_types`: identity
lookup of the key, returning the mapped legacy name when present. -/
def genericTypeLookup (v : Val) : Option String :=
  assocLookup new_generic_types v

/-- Python `dict[str, Any]`: an insertion-ordered association list with
unique keys. -/
abbrev Dict := List (String × Val)

/-- Python dict subscript read: value bound to the first (unique) matching
key. -/
def Dict.lookup : Dict → String → Option Val
  | [], _ => none
  | (k2, v) :: rest, k => if k2 = k then some v else Dict.lookup rest k

/-- Python `{**d, k: v}`: replaces `k`'s binding in place when the key is
present, otherwise appends the new binding after the copied entries. -/
def Dict.set : Dict → String → Val → Dict
  | [], k, v => [(k, v)]
  | (k2, v2) :: rest, k, v =>
      if k2 = k then (k, v) :: rest else (k2, v2) :: Dict.set rest k v

/-- Source-location metadata of a node: `lineno` and `col_offset`. -/
abbrev Loc := Nat × Nat

/-- Binary operator of an `ast.BinOp` node: `|` or any other operator class
(identified by its name, such as `"Add"`). -/
inductive Op where
  | bitOr
  | otherOp (name : String)
deriving DecidableEq

/-- Expression nodes of the Python `ast` module that this code handles.
Every constructor except `index` carries optional source-location data
(absent on freshly constructed nodes until `ast.fix_missing_locations`
fills it in); `ast.Index` genuinely has no location attributes.  `other`
stands for any further expression node kind, with its child list. -/
inductive Expr where
  | name (loc : Option Loc) (id : String)
  | attribute (loc : Option Loc) (value : Expr) (attr : String)
  | subscript (loc : Option Loc) (value : Expr) (slice : Expr)
  | binOp (loc : Option Loc) (left : Expr) (op : Op) (right : Expr)
  | tuple (loc : Option Loc) (elts : List Expr)
  | index (value : Expr)
  | constant (loc : Option Loc) (lit : String)
  | other (loc : Option Loc) (kind : String) (children : List Expr)

mutual
/-- Python `ast.fix_missing_locations` worker: a node missing its location
inherits the enclosing location (initially line 1, column 0); children are
fixed with the resulting location of their parent. -/
def fixLoc : Loc → Expr → Expr
  | c, .name loc i => .name (some (loc.getD c)) i
  | c, .attribute loc v a => .attribute (some (loc.getD c)) (fixLoc (loc.getD c) v) a
  | c, .subscript loc v s =>
      .subscript (some (loc.getD c)) (fixLoc (loc.getD c) v) (fixLoc (loc.getD c) s)
  | c, .binOp loc l op r =>
      .binOp (some (loc.getD c)) (fixLoc (loc.getD c) l) op (fixLoc (loc.getD c) r)
  | c, .tuple loc es => .tuple (some (loc.getD c)) (fixLocL (loc.getD c) es)
  | c, .index v => .index (fixLoc c v)
  | c, .constant loc s => .constant (some (loc.getD c)) s
  | c, .other loc k cs => .other (some (loc.getD c)) k (fixLocL (loc.getD c) cs)

/-- List worker for `fixLoc`. -/
def fixLocL : Loc → List Expr → List Expr
  | _, [] => []
  | c, e :: es => fixLoc c e :: fixLocL c es
end

/-- Python `ast.fix_missing_locations`, applied from the default location. -/
def fix_missing_locations (e : Expr) : Expr := fixLoc (1, 0) e

mutual
/-- Check that every node of the tree that has location attributes carries
filled-in location data. -/
def allLocsSome : Expr → Bool
  | .name loc _ => loc.isSome
  | .attribute loc v _ => loc.isSome && allLocsSome v
  | .subscript loc v s => loc.isSome && allLocsSome v && allLocsSome s
  | .binOp loc l _ r => loc.isSome && allLocsSome l && allLocsSome r
  | .tuple loc es => loc.isSome && allLocsSomeL es
  | .index v => allLocsSome v
  | .constant loc _ => loc.isSome
  | .other loc _ cs => loc.isSome && allLocsSomeL cs

/-- List worker for `allLocsSome`. -/
def allLocsSomeL : List Expr → Bool
  | [] => true
  | e :: es => allLocsSome e && allLocsSomeL es
end

/-- Argument of the public entry point: either a `typing.ForwardRef`
placeholder carrying its `__forward_arg__` source text, or any other value
(handed to native evaluation unchanged). -/
inductive TypeValue where
  | forwardRef (arg : String)
  | other (v : Val)
deriving DecidableEq

/-- Python `isinstance(value, typing.ForwardRef)`. -/
def TypeValue.isForwardRef : TypeValue → Bool
  | .forwardRef _ => true
  | _ => false

/-- Host-runtime collaborators consumed by the module, abstracted as
functions.  `versionLt39` is `sys.version_info[:2] < (3, 9)`;
`parse` is `ast.parse(text, mode='eval')` returning the expression body;
`nativeEvalType` is `typing._eval_type` on the public argument;
`evalExpr` is the compile-and-evaluate step used by
`BackportTransformer.eval_type` on a tree node under the two scopes;
`unionOr` is the host behaviour of `left_value | right_value`. -/
structure Runtime where
  versionLt39 : Bool
  parse : String → Except PyErr Expr
  nativeEvalType : TypeValue → Option Dict → Option Dict → Except PyErr Val
  evalExpr : Expr → Dict → Dict → Except PyErr Val
  unionOr : Val → Val → Except PyErr Val

/-- State of a `BackportTransformer` instance after `__init__`. -/
structure BackportTransformer where
  typing_name : String
  globalns : Dict
  localns : Dict
deriving DecidableEq

/-- Source lines 76-91, `BackportTransformer.__init__`: the two optional
scopes are normalized (both absent: one shared empty dict; exactly one
absent: the present one used for both), a collision-resistant synthetic
name `typing_<hex>` is generated (`fresh` stands for `uuid.uuid4().hex`),
and the local scope is replaced by a copy extended with the synthetic name
bound to the `typing` module. -/
def BackportTransformer.init (fresh : String) (globalns localns : Option Dict) :
    BackportTransformer :=
  let scopes : Dict × Dict :=
    match globalns, localns with
    | none, none => ([], [])
    | none, some l => (l, l)
    | some g, none => (g, g)
    | some g, some l => (g, l)
  { typing_name := "typing_" ++ fresh
    globalns := scopes.1
    localns := Dict.set scopes.2 ("typing_" ++ fresh) .typingModule }

mutual
/-- Source lines 93-144: `NodeTransformer.visit` dispatch for this
transformer, with an explicit call-depth budget.  The result pair is
(node returned by `visit`, state of the argument node object after the
call).  `visit_BinOp` (lines 102-125) handles every `BinOp`: for `|` it
visits both operands (without assigning the results back into the node),
evaluates them, tries the native union, and on the classified failure
returns the `typing.Union` replacement built from the RETURNED operand
trees; on success it returns the original node object, whose operand
fields still hold the original child objects (updated in place, but not
replaced).  For any other operator it returns the node untouched.
`visit_Subscript` (lines 127-144) exists only when `versionLt39`: it
visits the subscripted value, evaluates it, and either falls back to
`generic_visit` of the partially-updated node or builds the legacy
`typing.<Name>[...]` replacement.  All other node kinds take
`generic_visit`: each child field is replaced by the result of visiting
it, and the same (mutated) node is returned. -/
def visitE (R : Runtime) (t : BackportTransformer) : Nat → Expr → Except PyErr (Expr × Expr)
  | 0, _ => .error .recursionError
  | n + 1, .binOp loc l op r =>
    match op with
    | .bitOr =>
      match visitE R t n l with
      | .error e => .error e
      | .ok (lr, lm) =>
        match visitE R t n r with
        | .error e => .error e
        | .ok (rr, rm) =>
          match R.evalExpr lr t.globalns t.localns with
          | .error e => .error e
          | .ok lv =>
            match R.evalExpr rr t.globalns t.localns with
            | .error e => .error e
            | .ok rv =>
              match R.unionOr lv rv with
              | .ok _ =>
                .ok (.binOp loc lm .bitOr rm, .binOp loc lm .bitOr rm)
              | .error (.typeError m) =>
                if is_unsupported_types_for_union_error (.typeError m) then
                  .ok (fix_missing_locations
                        (.subscript none
                          (.attribute none (.name none t.typing_name) "Union")
                          (.index (.tuple none [lr, rr]))),
                      .binOp loc lm .bitOr rm)
                else .error (.typeError m)
              | .error e => .error e
    | .otherOp nm => .ok (.binOp loc l (.otherOp nm) r, .binOp loc l (.otherOp nm) r)
  | n + 1, .subscript loc v s =>
    if R.versionLt39 then
      match visitE R t n v with
      | .error e => .error e
      | .ok (vr, vm) =>
        match R.evalExpr vr t.globalns t.localns with
        | .error e => .error e
        | .ok vv =>
          match genericTypeLookup vv with
          | none =>
            match visitE R t n vm with
            | .error e => .error e
            | .ok (v2, _) =>
              match visitE R t n s with
              | .error e => .error e
              | .ok (s2, _) => .ok (.subscript loc v2 s2, .subscript loc v2 s2)
          | some nm =>
            match visitE R t n s with
            | .error e => .error e
            | .ok (sr, sm) =>
              .ok (fix_missing_locations
                    (.subscript none
                      (.attribute none (.name none t.typing_name) nm) sr),
                  .subscript loc vm sm)
    else
      match visitE R t n v with
      | .error e => .error e
      | .ok (vr, _) =>
        match visitE R t n s with
        | .error e => .error e
        | .ok (sr, _) => .ok (.subscript loc vr sr, .subscript loc vr sr)
  | n + 1, .attribute loc v a =>
    match visitE R t n v with
    | .error e => .error e
    | .ok (vr, _) => .ok (.attribute loc vr a, .attribute loc vr a)
  | n + 1, .tuple loc es =>
    match visitL R t n es with
    | .error e => .error e
    | .ok es2 => .ok (.tuple loc es2, .tuple loc es2)
  | n + 1, .index v =>
    match visitE R t n v with
    | .error e => .error e
    | .ok (vr, _) => .ok (.index vr, .index vr)
  | _ + 1, .name loc i => .ok (.name loc i, .name loc i)
  | _ + 1, .constant loc c => .ok (.constant loc c, .constant loc c)
  | n + 1, .other loc k cs =>
    match visitL R t n cs with
    | .error e => .error e
    | .ok cs2 => .ok (.other loc k cs2, .other loc k cs2)

/-- Child-list traversal of `generic_visit`: each element is replaced by
the node returned from visiting it. -/
def visitL (R : Runtime) (t : BackportTransformer) : Nat → List Expr → Except PyErr (List Expr)
  | 0, _ => .error .recursionError
  | _ + 1, [] => .ok []
  | n + 1, e :: es =>
    match visitE R t n e with
    | .error err => .error err
    | .ok (er, _) =>
      match visitL R t n es with
      | .error err => .error err
      | .ok es2 => .ok (er :: es2)
end

/-- Source lines 147-155, `_eval_direct`: parse the forward text, build a
fresh transformer from the two optional scopes, transform the tree, and
evaluate the transformed tree under the transformer's scopes.  A non
`ForwardRef` argument would fail on the `__forward_arg__` access, modelled
as an AttributeError. -/
def eval_direct (R : Runtime) (fuel : Nat) (fresh : String) (value : TypeValue)
    (globalns localns : Option Dict) : Except PyErr Val :=
  match value with
  | .forwardRef arg =>
    match R.parse arg with
    | .error e => .error e
    | .ok body =>
      let t := BackportTransformer.init fresh globalns localns
      match visitE R t fuel body with
      | .error e => .error e
      | .ok (body2, _) => R.evalExpr body2 t.globalns t.localns
  | .other _ => .error (.otherError "AttributeError: __forward_arg__")

/-- Source lines 158-178, `eval_type_backport`: with `try_default` unset, go
straight to the rewrite path; otherwise run native evaluation, return its
value on success, and on a raised `TypeError` fall back to the rewrite path
exactly when the argument is a `ForwardRef` and the classifier accepts the
error, re-raising the original error in every other case (a non
`TypeError` is never caught at all). -/
def eval_type_backport (R : Runtime) (fuel : Nat) (fresh : String) (value : TypeValue)
    (globalns localns : Option Dict) (try_default : Bool) : Except PyErr Val :=
  if try_default = false then eval_direct R fuel fresh value globalns localns
  else
    match R.nativeEvalType value globalns localns with
    | .ok v => .ok v
    | .error (.typeError m) =>
      if value.isForwardRef && is_backport_fixable_error (.typeError m) then
        eval_direct R fuel fresh value globalns localns
      else .error (.typeError m)
    | .error e => .error e

/-- Guard actually applied by the fallback `except TypeError` handler: the
raised error is a `TypeError` that the classifier accepts.  A non
`TypeError` is never caught, hence never classified as fixable. -/
def caughtFixable : PyErr → Bool
  | .typeError m => is_backport_fixable_error (.typeError m)
  | _ => false

/-- Guard actually applied by `visit_BinOp`'s `except TypeError` handler:
the raised error is a `TypeError` whose text marks the union-unsupported
case. -/
def caughtUnsupportedUnion : PyErr → Bool
  | .typeError m => is_unsupported_types_for_union_error (.typeError m)
  | _ => false

/-- Concrete host expression evaluator used by witnesses: a bare name
evaluates to the type object named by it, a subscript built by the rewriter
evaluates to a typing form, and anything else to a throwaway object. -/
def evalCx : Expr → Dict → Dict → Except PyErr Val
  | .name _ i, _, _ => .ok (.builtinType i)
  | .subscript _ _ _, _, _ => .ok (.typingForm "Union")
  | _, _, _ => .ok (.obj 0)

/-- Concrete host union operator used by witnesses: two plain type objects
reject `|` with the classified message; any other pair accepts it. -/
def unionCx : Val → Val → Except PyErr Val
  | .builtinType a, .builtinType b =>
      .error (.typeError ("unsupported operand type(s) for |: " ++ a ++ " and " ++ b))
  | _, _ => .ok (.obj 1)

/-- Concrete pre-3.9 host runtime for witnesses and counterexamples. -/
def Rcx : Runtime :=
  ⟨true, fun s => .ok (.name none s),
    fun _ _ _ => .error (.typeError "unsupported operand type(s) for |: a and b"),
    evalCx, unionCx⟩

/-- Concrete runtime whose native evaluation succeeds and whose union
operator always succeeds. -/
def Rok : Runtime :=
  ⟨false, fun s => .ok (.name none s), fun _ _ _ => .ok (.obj 7),
    evalCx, fun _ _ => .ok (.obj 2)⟩

/-- Concrete runtime whose union operator fails with an error that is not
the union-unsupported case. -/
def Rgenuine : Runtime :=
  ⟨false, fun s => .ok (.name none s), fun _ _ _ => .ok (.obj 7),
    evalCx, fun _ _ => .error (.typeError "int and str do not combine")⟩

/-- Transformer state used by witnesses (`uuid` hex fixed to `cx`). -/
def stCx : BackportTransformer := BackportTransformer.init "cx" none none

/-- Parsed tree of `a | b`. -/
def innerCx : Expr :=
  .binOp (some (1, 0)) (.name (some (1, 1)) "a") .bitOr (.name (some (1, 5)) "b")

/-- Parsed tree of `(a | b) | c`. -/
def outerCx : Expr := .binOp (some (1, 0)) innerCx .bitOr (.name (some (1, 9)) "c")

/-- Parsed tree of `(a | b) + c`: a binary node whose operator is not `|`,
holding a rewritable union below it. -/
def outerAddCx : Expr :=
  .binOp (some (1, 0)) innerCx (.otherOp "Add") (.name (some (1, 9)) "c")

/-- The `typing_cx.Union[a, b]` replacement the rewriter returns for
`innerCx` under `Rcx`. -/
def replCx : Expr :=
  fix_missing_locations
    (.subscript none (.attribute none (.name none "typing_cx") "Union")
      (.index (.tuple none [.name (some (1, 1)) "a", .name (some (1, 5)) "b"])))

theorem Dict.lookup_set_self (d : Dict) (k : String) (v : Val) :
    Dict.lookup (Dict.set d k v) k = some v := by
  induction d with
  | nil => simp [Dict.set, Dict.lookup]
  | cons p rest ih =>
    obtain ⟨k2, v2⟩ := p
    by_cases h : k2 = k
    · simp [Dict.set, h, Dict.lookup]
    · simp [Dict.set, h, Dict.lookup, ih]

theorem Dict.lookup_set_ne (d : Dict) (k k2 : String) (v : Val) (h : k2 ≠ k) :
    Dict.lookup (Dict.set d k v) k2 = Dict.lookup d k2 := by
  have hne : ¬ k = k2 := fun h2 => h h2.symm
  induction d with
  | nil => simp [Dict.set, Dict.lookup, hne]
  | cons p rest ih =>
    obtain ⟨k3, v3⟩ := p
    by_cases h3 : k3 = k
    · subst h3
      simp [Dict.set, Dict.lookup, hne]
    · simp only [Dict.set, if_neg h3, Dict.lookup]
      by_cases h4 : k3 = k2
      · simp [h4]
      · simp [h4, ih]

theorem Dict.set_eq_append (d : Dict) (k : String) (v : Val)
    (h : Dict.lookup d k = none) : Dict.set d k v = d ++ [(k, v)] := by
  induction d with
  | nil => simp [Dict.set]
  | cons p rest ih =>
    obtain ⟨k2, v2⟩ := p
    by_cases h2 : k2 = k
    · simp [Dict.lookup, h2] at h
    · simp only [Dict.lookup, if_neg h2] at h
      simp [Dict.set, h2, ih h]

mutual
theorem allLocsSome_fixLoc : (c : Loc) → (e : Expr) → allLocsSome (fixLoc c e) = true
  | _, .name _ _ => by simp [fixLoc, allLocsSome]
  | c, .attribute loc v _ => by
    have hv := allLocsSome_fixLoc (loc.getD c) v
    simp [fixLoc, allLocsSome, hv]
  | c, .subscript loc v s => by
    have hv := allLocsSome_fixLoc (loc.getD c) v
    have hs := allLocsSome_fixLoc (loc.getD c) s
    simp [fixLoc, allLocsSome, hv, hs]
  | c, .binOp loc l _ r => by
    have hl := allLocsSome_fixLoc (loc.getD c) l
    have hr := allLocsSome_fixLoc (loc.getD c) r
    simp [fixLoc, allLocsSome, hl, hr]
  | c, .tuple loc es => by
    have hs := allLocsSomeL_fixLocL (loc.getD c) es
    simp [fixLoc, allLocsSome, hs]
  | c, .index v => by
    have hv := allLocsSome_fixLoc c v
    simp [fixLoc, allLocsSome, hv]
  | _, .constant _ _ => by simp [fixLoc, allLocsSome]
  | c, .other loc _ cs => by
    have hs := allLocsSomeL_fixLocL (loc.getD c) cs
    simp [fixLoc, allLocsSome, hs]

theorem allLocsSomeL_fixLocL : (c : Loc) → (es : List Expr) → allLocsSomeL (fixLocL c es) = true
  | _, [] => by simp [fixLocL, allLocsSomeL]
  | c, e :: rest => by
    have he := allLocsSome_fixLoc c e
    have hr := allLocsSomeL_fixLocL c rest
    simp [fixLocL, allLocsSomeL, he, hr]
end

/-- Claim C1: when native evaluation of `eval_type_backport`'s argument
raises an error under `try_default`, the original error is re-raised
unchanged unless the argument is a `ForwardRef` AND the error is a
`TypeError` the classifier accepts, in which case the call becomes exactly
the rewrite path on the same argument and the same two scopes.  (A non
`TypeError` is outside the `except TypeError` clause, hence never treated
as fixable.) -/
theorem c1_native_failure_dispatch (R : Runtime) (fuel : Nat) (fresh : String)
    (value : TypeValue) (g l : Option Dict) (e : PyErr)
    (h : R.nativeEvalType value g l = .error e) :
    (value.isForwardRef = false ∨ caughtFixable e = false →
      eval_type_backport R fuel fresh value g l true = .error e) ∧
    (∀ arg, value = .forwardRef arg → caughtFixable e = true →
      eval_type_backport R fuel fresh value g l true =
        eval_direct R fuel fresh value g l) := by
  constructor
  · intro hcase
    cases e with
    | typeError m =>
      have hguard : (value.isForwardRef && is_backport_fixable_error (.typeError m)) = false := by
        rcases hcase with h1 | h1
        · simp [h1]
        · simp [caughtFixable] at h1
          simp [h1]
      simp [eval_type_backport, h, hguard]
    | otherError m => simp [eval_type_backport, h]
    | recursionError => simp [eval_type_backport, h]
  · intro arg harg hfix
    subst harg
    cases e with
    | typeError m =>
      simp [caughtFixable] at hfix
      simp [eval_type_backport, h, TypeValue.isForwardRef, hfix]
    | otherError m => simp [caughtFixable] at hfix
    | recursionError => simp [caughtFixable] at hfix

/-- Claim C1 witness at a concrete runtime: native evaluation fails with the
classified `TypeError`, the argument is a `ForwardRef`, and the call equals
the rewrite path. -/
theorem c1_native_failure_dispatch_witness :
    Rcx.nativeEvalType (.forwardRef "a | b") none none =
      .error (.typeError "unsupported operand type(s) for |: a and b") ∧
    caughtFixable (.typeError "unsupported operand type(s) for |: a and b") = true ∧
    eval_type_backport Rcx 9 "cx" (.forwardRef "a | b") none none true =
      eval_direct Rcx 9 "cx" (.forwardRef "a | b") none none :=
  ⟨rfl, by decide,
    (c1_native_failure_dispatch Rcx 9 "cx" (.forwardRef "a | b") none none
      (.typeError "unsupported operand type(s) for |: a and b") rfl).2 "a | b" rfl (by decide)⟩

/-- Claim C2, as stated, is false on the code: on the success path
`visit_BinOp` executes `return node` WITHOUT assigning the visited operand
trees back into the node, so a child whose visit returned a replacement is
not installed.  Here the inner union of `(a | b) | c` is rewritten (its
visit returns `replCx`, not the in-place-updated original `innerCx`), the
outer native union succeeds, and the handler returns the outer node with
its left operand still the UNREWRITTEN `innerCx` rather than the
transformed `replCx`. -/
theorem c2_counterexample :
    visitE Rcx stCx 2 innerCx = .ok (replCx, innerCx) ∧
    Rcx.unionOr (Val.typingForm "Union") (Val.builtinType "c") = .ok (.obj 1) ∧
    visitE Rcx stCx 3 outerCx = .ok (outerCx, outerCx) ∧
    replCx ≠ innerCx := by
  refine ⟨rfl, rfl, rfl, ?_⟩
  simp [replCx, innerCx, fix_missing_locations, fixLoc]

/-- Claim C2 amended: when the native union of the evaluated operand values
succeeds, the handler returns the original node object; its operand fields
hold the original child objects as updated in place by their visits (`lm`,
`rm`), which coincide with the returned transformed versions except when a
child's visit returned a replacement node.  The union check itself does see
the transformed operands (`lr`, `rr` are what is evaluated), so evaluation
is innermost-first. -/
theorem c2_success_keeps_inplace_children (R : Runtime) (t : BackportTransformer)
    (n : Nat) (loc : Option Loc) (l r lr lm rr rm : Expr) (lv rv u : Val)
    (h1 : visitE R t n l = .ok (lr, lm))
    (h2 : visitE R t n r = .ok (rr, rm))
    (h3 : R.evalExpr lr t.globalns t.localns = .ok lv)
    (h4 : R.evalExpr rr t.globalns t.localns = .ok rv)
    (h5 : R.unionOr lv rv = .ok u) :
    visitE R t (n + 1) (.binOp loc l .bitOr r) =
      .ok (.binOp loc lm .bitOr rm, .binOp loc lm .bitOr rm) := by
  simp [visitE, h1, h2, h3, h4, h5]

/-- Claim C2 amended-theorem witness at a concrete runtime whose union
succeeds: the node comes back unchanged. -/
theorem c2_success_keeps_inplace_children_witness :
    visitE Rok stCx 1 (.name (some (1, 1)) "x") =
      .ok (.name (some (1, 1)) "x", .name (some (1, 1)) "x") ∧
    Rok.unionOr (.builtinType "x") (.builtinType "y") = .ok (.obj 2) ∧
    visitE Rok stCx 2 (.binOp (some (1, 0)) (.name (some (1, 1)) "x") .bitOr (.name (some (1, 5)) "y")) =
      .ok (.binOp (some (1, 0)) (.name (some (1, 1)) "x") .bitOr (.name (some (1, 5)) "y"),
          .binOp (some (1, 0)) (.name (some (1, 1)) "x") .bitOr (.name (some (1, 5)) "y")) :=
  ⟨rfl, rfl,
    c2_success_keeps_inplace_children Rok stCx 1 (some (1, 0))
      (.name (some (1, 1)) "x") (.name (some (1, 5)) "y")
      (.name (some (1, 1)) "x") (.name (some (1, 1)) "x")
      (.name (some (1, 5)) "y") (.name (some (1, 5)) "y")
      (.builtinType "x") (.builtinType "y") (.obj 2) rfl rfl rfl rfl rfl⟩

/-- Claim C3: under `try_default`, a successful native evaluation is
returned unchanged, and the result does not depend on the parser, the
transformer, the union operator, the depth budget or the synthetic-name
seed — any runtime with the same native evaluator (and any budget/seed)
gives the same answer, so the rewrite machinery is never consulted. -/
theorem c3_native_success_passthrough (R : Runtime) (fuel : Nat) (fresh : String)
    (value : TypeValue) (g l : Option Dict) (v : Val)
    (h : R.nativeEvalType value g l = .ok v) :
    eval_type_backport R fuel fresh value g l true = .ok v ∧
    (∀ (R2 : Runtime) (fuel2 : Nat) (fresh2 : String),
      R2.nativeEvalType = R.nativeEvalType →
      eval_type_backport R2 fuel2 fresh2 value g l true = .ok v) := by
  constructor
  · simp [eval_type_backport, h]
  · intro R2 fuel2 fresh2 h2
    have hx : R2.nativeEvalType value g l = .ok v := by rw [h2]; exact h
    simp [eval_type_backport, hx]

/-- Claim C3 witness: with zero depth budget (the transformer could not even
run), a successful native evaluation is passed through. -/
theorem c3_native_success_passthrough_witness :
    Rok.nativeEvalType (.forwardRef "int") none none = .ok (.obj 7) ∧
    eval_type_backport Rok 0 "w3" (.forwardRef "int") none none true = .ok (.obj 7) :=
  ⟨rfl, (c3_native_success_passthrough Rok 0 "w3" (.forwardRef "int") none none (.obj 7) rfl).1⟩

/-- Claim C4: when the native union of the evaluated operands raises the
union-unsupported `TypeError`, the handler returns
`<synthetic-typing-name>.Union[lr, rr]` — a subscript of the `Union`
attribute of the synthetic typing name, indexed by the 2-tuple of the
TRANSFORMED operand trees — passed through `ast.fix_missing_locations`,
after which every location attribute on the returned tree is filled in. -/
theorem c4_union_rewrite (R : Runtime) (t : BackportTransformer) (n : Nat)
    (loc : Option Loc) (l r lr lm rr rm : Expr) (lv rv : Val) (m : String)
    (h1 : visitE R t n l = .ok (lr, lm))
    (h2 : visitE R t n r = .ok (rr, rm))
    (h3 : R.evalExpr lr t.globalns t.localns = .ok lv)
    (h4 : R.evalExpr rr t.globalns t.localns = .ok rv)
    (h5 : R.unionOr lv rv = .error (.typeError m))
    (h6 : is_unsupported_types_for_union_error (.typeError m) = true) :
    visitE R t (n + 1) (.binOp loc l .bitOr r) =
      .ok (fix_missing_locations
            (.subscript none (.attribute none (.name none t.typing_name) "Union")
              (.index (.tuple none [lr, rr]))),
          .binOp loc lm .bitOr rm) ∧
    allLocsSome (fix_missing_locations
      (.subscript none (.attribute none (.name none t.typing_name) "Union")
        (.index (.tuple none [lr, rr])))) = true := by
  constructor
  · simp [visitE, h1, h2, h3, h4, h5, h6]
  · exact allLocsSome_fixLoc _ _

/-- Claim C4 witness: under `Rcx`, `a | b` is rewritten into the
`typing_cx.Union[a, b]` subscript with all locations filled in. -/
theorem c4_union_rewrite_witness :
    Rcx.unionOr (.builtinType "a") (.builtinType "b") =
      .error (.typeError "unsupported operand type(s) for |: a and b") ∧
    is_unsupported_types_for_union_error
      (.typeError "unsupported operand type(s) for |: a and b") = true ∧
    (visitE Rcx stCx 2 innerCx =
      .ok (fix_missing_locations
            (.subscript none (.attribute none (.name none stCx.typing_name) "Union")
              (.index (.tuple none [.name (some (1, 1)) "a", .name (some (1, 5)) "b"]))),
          .binOp (some (1, 0)) (.name (some (1, 1)) "a") .bitOr (.name (some (1, 5)) "b")) ∧
    allLocsSome (fix_missing_locations
      (.subscript none (.attribute none (.name none stCx.typing_name) "Union")
        (.index (.tuple none [.name (some (1, 1)) "a", .name (some (1, 5)) "b"])))) = true) :=
  ⟨rfl, by decide,
    c4_union_rewrite Rcx stCx 1 (some (1, 0))
      (.name (some (1, 1)) "a") (.name (some (1, 5)) "b")
      (.name (some (1, 1)) "a") (.name (some (1, 1)) "a")
      (.name (some (1, 5)) "b") (.name (some (1, 5)) "b")
      (.builtinType "a") (.builtinType "b")
      "unsupported operand type(s) for |: a and b" rfl rfl rfl rfl rfl (by decide)⟩

/-- Claim C5: on a pre-3.9 runtime, `visit_Subscript` keys the legacy-name
table by exact object identity — a subclass object never matches any key —
and: if the evaluated subscripted value is not a key, the node takes the
default `generic_visit` traversal (of the node whose value field was
already updated in place); if it is a key, the node is replaced by
`<synthetic-typing-name>.<LegacyName>[transformed slice]` with every
location attribute filled in. -/
theorem c5_subscript_rewrite (R : Runtime) (t : BackportTransformer) (n : Nat)
    (loc : Option Loc) (v s vr vm : Expr) (vv : Val)
    (h39 : R.versionLt39 = true)
    (h1 : visitE R t n v = .ok (vr, vm))
    (h2 : R.evalExpr vr t.globalns t.localns = .ok vv) :
    (∀ b nm, genericTypeLookup (.subclassOf b nm) = none) ∧
    (∀ v2 a s2 b, genericTypeLookup vv = none →
      visitE R t n vm = .ok (v2, a) → visitE R t n s = .ok (s2, b) →
      visitE R t (n + 1) (.subscript loc v s) =
        .ok (.subscript loc v2 s2, .subscript loc v2 s2)) ∧
    (∀ nm sr sm, genericTypeLookup vv = some nm → visitE R t n s = .ok (sr, sm) →
      visitE R t (n + 1) (.subscript loc v s) =
        .ok (fix_missing_locations
              (.subscript none (.attribute none (.name none t.typing_name) nm) sr),
            .subscript loc vm sm) ∧
      allLocsSome (fix_missing_locations
        (.subscript none (.attribute none (.name none t.typing_name) nm) sr)) = true) := by
  refine ⟨?_, ?_, ?_⟩
  · intro b nm
    simp [genericTypeLookup, new_generic_types, assocLookup]
  · intro v2 a s2 b hnone hvm hs
    simp [visitE, h39, h1, h2, hnone, hvm, hs]
  · intro nm sr sm hsome hs
    exact ⟨by simp [visitE, h39, h1, h2, hsome, hs], allLocsSome_fixLoc _ _⟩

/-- Claim C5 witness: under `Rcx` (a pre-3.9 host), `list[int]` is rewritten
into `typing_cx.List[int]` with all locations filled in. -/
theorem c5_subscript_rewrite_witness :
    Rcx.versionLt39 = true ∧
    Rcx.evalExpr (.name (some (1, 0)) "list") stCx.globalns stCx.localns =
      .ok (.builtinType "list") ∧
    genericTypeLookup (.builtinType "list") = some "List" ∧
    (visitE Rcx stCx 3
        (.subscript (some (1, 0)) (.name (some (1, 0)) "list") (.index (.name (some (1, 5)) "int"))) =
      .ok (fix_missing_locations
            (.subscript none (.attribute none (.name none stCx.typing_name) "List")
              (.index (.name (some (1, 5)) "int"))),
          .subscript (some (1, 0)) (.name (some (1, 0)) "list") (.index (.name (some (1, 5)) "int"))) ∧
    allLocsSome (fix_missing_locations
      (.subscript none (.attribute none (.name none stCx.typing_name) "List")
        (.index (.name (some (1, 5)) "int")))) = true) :=
  ⟨rfl, rfl, rfl,
    (c5_subscript_rewrite Rcx stCx 2 (some (1, 0))
      (.name (some (1, 0)) "list") (.index (.name (some (1, 5)) "int"))
      (.name (some (1, 0)) "list") (.name (some (1, 0)) "list")
      (.builtinType "list") rfl rfl rfl).2.2 "List"
      (.index (.name (some (1, 5)) "int")) (.index (.name (some (1, 5)) "int")) rfl rfl⟩

/-- Claim C6: when the native union attempt raises any error that is not the
union-unsupported `TypeError` — another `TypeError`, or an uncaught non
`TypeError` — the handler re-raises exactly that error and builds no
replacement. -/
theorem c6_genuine_error_reraised (R : Runtime) (t : BackportTransformer) (n : Nat)
    (loc : Option Loc) (l r lr lm rr rm : Expr) (lv rv : Val) (e : PyErr)
    (h1 : visitE R t n l = .ok (lr, lm))
    (h2 : visitE R t n r = .ok (rr, rm))
    (h3 : R.evalExpr lr t.globalns t.localns = .ok lv)
    (h4 : R.evalExpr rr t.globalns t.localns = .ok rv)
    (h5 : R.unionOr lv rv = .error e)
    (h6 : caughtUnsupportedUnion e = false) :
    visitE R t (n + 1) (.binOp loc l .bitOr r) = .error e := by
  cases e with
  | typeError m =>
    simp [caughtUnsupportedUnion] at h6
    simp [visitE, h1, h2, h3, h4, h5, h6]
  | otherError m => simp [visitE, h1, h2, h3, h4, h5]
  | recursionError => simp [visitE, h1, h2, h3, h4, h5]

/-- Claim C6 witness: a genuine `TypeError` (text not of the
union-unsupported form) raised by the union operator propagates out of the
handler unchanged. -/
theorem c6_genuine_error_reraised_witness :
    Rgenuine.unionOr (.builtinType "x") (.builtinType "y") =
      .error (.typeError "int and str do not combine") ∧
    caughtUnsupportedUnion (.typeError "int and str do not combine") = false ∧
    visitE Rgenuine stCx 2
        (.binOp (some (1, 0)) (.name (some (1, 1)) "x") .bitOr (.name (some (1, 5)) "y")) =
      .error (.typeError "int and str do not combine") :=
  ⟨rfl, by decide,
    c6_genuine_error_reraised Rgenuine stCx 1 (some (1, 0))
      (.name (some (1, 1)) "x") (.name (some (1, 5)) "y")
      (.name (some (1, 1)) "x") (.name (some (1, 1)) "x")
      (.name (some (1, 5)) "y") (.name (some (1, 5)) "y")
      (.builtinType "x") (.builtinType "y")
      (.typeError "int and str do not combine") rfl rfl rfl rfl rfl (by decide)⟩

/-- Claim C7: the classifier is exactly text matching on `str(e)`:
`is_unsupported_types_for_union_error` holds iff the message starts with
the runtime's union-rejection wording, `is_not_subscriptable_error` holds
iff the message contains the not-subscriptable wording, and
`is_backport_fixable_error` is their disjunction, for every error. -/
theorem c7_classifier_spec (e : PyErr) :
    (is_unsupported_types_for_union_error e = true ↔
      "unsupported operand type(s) for |: ".toList <+: (PyErr.str e).toList) ∧
    (is_not_subscriptable_error e = true ↔
      "\x27 object is not subscriptable".toList <:+: (PyErr.str e).toList) ∧
    is_backport_fixable_error e =
      (is_unsupported_types_for_union_error e || is_not_subscriptable_error e) := by
  refine ⟨?_, ?_, rfl⟩
  · simp [is_unsupported_types_for_union_error, strStartsWith]
  · simp [is_not_subscriptable_error, strContains]

/-- Claim C8: `BackportTransformer.__init__` normalizes the two optional
scopes exactly as specified — both absent default to one (shared) empty
dict, and when exactly one is present it is used for both, so that every
identifier other than the synthetic typing name resolves in the local scope
exactly as in the global scope. -/
theorem c8_scope_normalization (fresh : String) (g l : Dict) :
    (BackportTransformer.init fresh none none).globalns = [] ∧
    (BackportTransformer.init fresh none none).localns =
      Dict.set [] ("typing_" ++ fresh) .typingModule ∧
    (BackportTransformer.init fresh none (some l)).globalns = l ∧
    (BackportTransformer.init fresh none (some l)).localns =
      Dict.set l ("typing_" ++ fresh) .typingModule ∧
    (BackportTransformer.init fresh (some g) none).globalns = g ∧
    (BackportTransformer.init fresh (some g) none).localns =
      Dict.set g ("typing_" ++ fresh) .typingModule ∧
    (∀ k, k ≠ "typing_" ++ fresh →
      Dict.lookup (BackportTransformer.init fresh (some g) none).localns k =
        Dict.lookup (BackportTransformer.init fresh (some g) none).globalns k) := by
  refine ⟨rfl, rfl, rfl, rfl, rfl, rfl, ?_⟩
  intro k hk
  exact Dict.lookup_set_ne g ("typing_" ++ fresh) k .typingModule hk

/-- Claim C8 witness: with only the global scope supplied, an ordinary
identifier resolves in the constructed local scope exactly as in the
global scope. -/
theorem c8_scope_normalization_witness :
    Dict.lookup (BackportTransformer.init "w8" (some [("n", Val.obj 3)]) none).localns "n" =
      Dict.lookup (BackportTransformer.init "w8" (some [("n", Val.obj 3)]) none).globalns "n" :=
  (c8_scope_normalization "w8" [("n", Val.obj 3)] []).2.2.2.2.2.2 "n" (by decide)

/-- Claim C9, as stated, is false on the code: `visit_BinOp` receives EVERY
`BinOp` node, and for an operator other than `|` it executes the trailing
`return node` — no `generic_visit`, no recursion into the children.  Here
`(a | b) + c` holds a rewritable union (its own visit returns `replCx`),
yet the `Add` node comes back untouched, child untransformed. -/
theorem c9_counterexample :
    visitE Rcx stCx 2 innerCx = .ok (replCx, innerCx) ∧
    replCx ≠ innerCx ∧
    visitE Rcx stCx 3 outerAddCx = .ok (outerAddCx, outerAddCx) := by
  refine ⟨rfl, ?_, rfl⟩
  simp [replCx, innerCx, fix_missing_locations, fixLoc]

/-- Claim C9 amended: a binary-operator node whose operator is not `|` is
returned unchanged with no recursion into its children (children holding
rewritable constructs stay untransformed); default recursive descent
applies only to node kinds other than `BinOp` (and, before 3.9,
`Subscript`), while `|` nodes and subscript nodes get the overridden
handling. -/
theorem c9_non_union_binop_unchanged (R : Runtime) (t : BackportTransformer)
    (n : Nat) (loc : Option Loc) (l r : Expr) (nm : String) :
    visitE R t (n + 1) (.binOp loc l (.otherOp nm) r) =
      .ok (.binOp loc l (.otherOp nm) r, .binOp loc l (.otherOp nm) r) := by
  simp [visitE]

/-- Claim C10: neither `eval_type_backport` nor the transformer modifies the
caller's scope dicts: the constructed state keeps the caller's global dict
as is, and its local dict is a copy holding exactly the caller's local
entries (in order) plus the single fresh synthetic binding to the typing
module; every other key resolves exactly as in the caller's dict. -/
theorem c10_no_caller_scope_mutation (fresh : String) (g l : Dict)
    (hfresh : Dict.lookup l ("typing_" ++ fresh) = none) :
    (BackportTransformer.init fresh (some g) (some l)).globalns = g ∧
    (BackportTransformer.init fresh (some g) (some l)).localns =
      l ++ [("typing_" ++ fresh, Val.typingModule)] ∧
    Dict.lookup (BackportTransformer.init fresh (some g) (some l)).localns
      ("typing_" ++ fresh) = some Val.typingModule ∧
    (∀ k, k ≠ "typing_" ++ fresh →
      Dict.lookup (BackportTransformer.init fresh (some g) (some l)).localns k =
        Dict.lookup l k) := by
  refine ⟨rfl, ?_, ?_, ?_⟩
  · exact Dict.set_eq_append l ("typing_" ++ fresh) .typingModule hfresh
  · exact Dict.lookup_set_self l ("typing_" ++ fresh) .typingModule
  · intro k hk
    exact Dict.lookup_set_ne l ("typing_" ++ fresh) k .typingModule hk

/-- Claim C10 witness: the constructed local scope is the caller's entries
plus exactly the one synthetic binding, the caller's entry still
resolving. -/
theorem c10_no_caller_scope_mutation_witness :
    Dict.lookup [("a", Val.obj 1)] ("typing_" ++ "w") = none ∧
    (BackportTransformer.init "w" (some [("g1", Val.obj 2)]) (some [("a", Val.obj 1)])).localns =
      [("a", Val.obj 1)] ++ [("typing_" ++ "w", Val.typingModule)] :=
  ⟨by decide,
    (c10_no_caller_scope_mutation "w" [("g1", Val.obj 2)] [("a", Val.obj 1)] (by decide)).2.1⟩

end ETB
